import Mathlib

/-!
Shallow embedding of `src/packages/js/dist/runner.js` (the `Workspace` class
of near-workspaces) and of the `Runner` surface declared in
`src/dist/runner.d.ts`.  The runtime module (`./runtime`, providing
`WorkspaceContainer`) is not part of the given sources; the visible layer only
awaits it, so it is abstracted below where the claims need it.
-/

/-- A JavaScript value, as far as the visible layer distinguishes them:
`typeof` classification plus identity for functions and plain objects.
Functions and objects carry an identity (`Nat`); objects point into a heap. -/
inductive JSValue where
  | undefined
  | null
  | boolean (b : Bool)
  | number (n : Int)
  | string (s : String)
  | function (id : Nat)
  | object (id : Nat)
  deriving DecidableEq

/-- JavaScript `typeof`.  Note `typeof null = "object"`. -/
def jsTypeof : JSValue → String
  | JSValue.undefined => "undefined"
  | JSValue.null => "object"
  | JSValue.boolean _ => "boolean"
  | JSValue.number _ => "number"
  | JSValue.string _ => "string"
  | JSValue.function _ => "function"
  | JSValue.object _ => "object"

/-- A plain object as this layer sees it: the `network` property (the only one
the code reads or writes) plus the remaining properties, untouched. -/
structure Obj where
  network : JSValue
  rest : List (String × JSValue)
  deriving DecidableEq

/-- The object created by the literal expression with no properties. -/
def emptyObj : Obj := ⟨JSValue.undefined, []⟩

/-- A heap of plain objects: a total store indexed by object identity, plus
the next fresh identity. -/
structure Heap where
  objs : Nat → Obj
  next : Nat

/-- Allocate a fresh empty object, returning the new heap and its identity. -/
def Heap.alloc (h : Heap) : Heap × Nat :=
  (⟨fun j => if j = h.next then emptyObj else h.objs j, h.next + 1⟩, h.next)

/-- Overwrite the object at identity `id` (in-place mutation of that object). -/
def Heap.set (h : Heap) (id : Nat) (o : Obj) : Heap :=
  ⟨fun j => if j = id then o else h.objs j, h.next⟩

/-- A heap with nothing allocated, used as a concrete starting point. -/
def heap0 : Heap := ⟨fun _ => emptyObj, 0⟩

/-- The errors the visible layer can throw.  `invalidArguments` is the
`new Error` of `getConfigAndFn`; `invalidNetwork v` is the `new Error` of
`getNetworkFromEnv` for an unrecognized value `v`; `typeErrorNullRead p` is
the TypeError the JS runtime raises when property `p` is read on `null`. -/
inductive JSError where
  | invalidArguments
  | invalidNetwork (value : String)
  | typeErrorNullRead (prop : String)
  deriving DecidableEq

/-- `true` exactly on thrown results. -/
def isError {α : Type} : Except JSError α → Bool
  | Except.error _ => true
  | Except.ok _ => false

/-- `true` exactly when the result is the thrown invalid-arguments error. -/
def isInvalidArguments {α : Type} : Except JSError α → Bool
  | Except.error JSError.invalidArguments => true
  | _ => false

/-- `true` exactly when the result is a thrown invalid-network error. -/
def isInvalidNetwork {α : Type} : Except JSError α → Bool
  | Except.error (JSError.invalidNetwork _) => true
  | _ => false

/-- The nullish test performed by the compiled `??` operator:
`(_a = config.network) !== null && _a !== void 0 ? _a : ...`. -/
def isNullish : JSValue → Bool
  | JSValue.null => true
  | JSValue.undefined => true
  | _ => false

namespace Workspace

/-- `Workspace.getNetworkFromEnv`: the environment variable
`NEAR_WORKSPACES_NETWORK` is either unset (`none`) or a string.  The switch
returns `sandbox` and `testnet` unchanged, maps unset to `sandbox`, and
throws on everything else. -/
def getNetworkFromEnv (env : Option String) : Except JSError String :=
  match env with
  | some "sandbox" => Except.ok "sandbox"
  | some "testnet" => Except.ok "testnet"
  | none => Except.ok "sandbox"
  | some network => Except.error (JSError.invalidNetwork network)

/-- `Workspace.networkIsTestnet`: strict equality of the resolved network with
the string `testnet`; a throw from `getNetworkFromEnv` propagates. -/
def networkIsTestnet (env : Option String) : Except JSError Bool :=
  match getNetworkFromEnv env with
  | Except.ok n => Except.ok (n == "testnet")
  | Except.error e => Except.error e

/-- `Workspace.networkIsSandbox`: strict equality of the resolved network with
the string `sandbox`; a throw from `getNetworkFromEnv` propagates. -/
def networkIsSandbox (env : Option String) : Except JSError Bool :=
  match getNetworkFromEnv env with
  | Except.ok n => Except.ok (n == "sandbox")
  | Except.error e => Except.error e

end Workspace

/-- `getConfigAndFn(configOrFunction, f)`: classify the two arguments by
`typeof`.  A lone function gets a freshly allocated empty object as its
configuration; an object-typed first argument (which includes `null`) together
with a function or missing second argument is passed through; anything else
throws.  Returns the (possibly extended) heap with the resolved pair. -/
def getConfigAndFn (h : Heap) (configOrFunction f : JSValue) :
    Except JSError (Heap × JSValue × JSValue) :=
  let type1 := jsTypeof configOrFunction
  let type2 := jsTypeof f
  if type1 = "function" ∧ type2 = "undefined" then
    let p := h.alloc
    Except.ok (p.1, JSValue.object p.2, configOrFunction)
  else if type1 = "object" ∧ (type2 = "function" ∨ type2 = "undefined") then
    Except.ok (h, configOrFunction, f)
  else
    Except.error JSError.invalidArguments

/-- The default value of `Workspace.init`'s first parameter, the arrow
function `async () => ({})`.  Only its `typeof` (a function) matters to the
visible layer; its identity is opaque. -/
def defaultInitFn : JSValue := JSValue.function 0

namespace Workspace

/-- `Workspace.init(configOrFunction = async () => ({}), f)`: resolve the
arguments with `getConfigAndFn`, then execute
`config.network = config.network ?? getNetworkFromEnv()`.  Reading `.network`
on a `null` configuration throws a TypeError.  The construction of the
`WorkspaceContainer` from the resolved `(config, fn)` is delegated to the
unseen runtime, so the model returns the resolved heap, configuration and
run function.  The second component counts how many times the environment
variable was read, on every path. -/
def init (h : Heap) (env : Option String) (configOrFunction f : JSValue) :
    Except JSError (Heap × JSValue × JSValue) × Nat :=
  let arg1 := if configOrFunction = JSValue.undefined then defaultInitFn
              else configOrFunction
  match getConfigAndFn h arg1 f with
  | Except.error e => (Except.error e, 0)
  | Except.ok (h2, config, fn) =>
    match config with
    | JSValue.object id =>
      let obj := h2.objs id
      if isNullish obj.network then
        match getNetworkFromEnv env with
        | Except.error e => (Except.error e, 1)
        | Except.ok net =>
          (Except.ok (h2.set id { obj with network := JSValue.string net },
              JSValue.object id, fn), 1)
      else
        (Except.ok (h2.set id obj, JSValue.object id, fn), 0)
    | _ => (Except.error (JSError.typeErrorNullRead "network"), 0)

end Workspace

/-- The suspension points of `clone` and `cloneSandbox`, in the order the
`await` expressions of the source are reached: awaiting `this.ready`,
awaiting `this.container.createFrom()`, and awaiting `container.clone(fn)`
(which is where the user callback `fn` runs). -/
inductive Event where
  | awaitReady
  | awaitCreateFrom
  | runCallback (fn : Nat)
  deriving DecidableEq

/-- A sequential async computation, shallowly embedded as the ordered trace
of suspension points it performs together with its result. -/
abbrev Async (α : Type) := List Event × α

/-- Return without suspending. -/
def Async.pure {α : Type} (a : α) : Async α := ([], a)

/-- Sequencing: the second computation starts only after the first has
completed, so its trace follows the first's. -/
def Async.bind {α β : Type} (x : Async α) (f : α → Async β) : Async β :=
  (x.1 ++ (f x.2).1, (f x.2).2)

/-- Modelled from the spec: the configuration carried by the runtime's
`WorkspaceContainer`, of which this layer reads only `config.network`. -/
structure ContainerConfig where
  network : String
  deriving DecidableEq

/-- Modelled from the spec: the `WorkspaceContainer` of the unseen runtime
module, an opaque collaborator of which only `config` is consulted here. -/
structure WorkspaceContainer where
  config : ContainerConfig
  deriving DecidableEq

/-- The state a `Workspace` instance reaches once `this.ready` has resolved:
`this.container` is set (by `startWaiting`). -/
structure WorkspaceState where
  container : WorkspaceContainer
  deriving DecidableEq

/-- `await this.ready`. -/
def awaitReadyStep : Async Unit := ([Event.awaitReady], ())

/-- `await this.container.createFrom()`: the derivation itself is runtime
work, abstracted as the function `createFrom`. -/
def awaitCreateFromStep (createFrom : WorkspaceContainer → WorkspaceContainer)
    (c : WorkspaceContainer) : Async WorkspaceContainer :=
  ([Event.awaitCreateFrom], createFrom c)

/-- `await container.clone(fn)`: running the user callback via the derived
container, runtime work abstracted as an event. -/
def awaitCallbackStep (fn : Nat) : Async Unit := ([Event.runCallback fn], ())

namespace Workspace

/-- `Workspace.clone(fn)`: await readiness, await the derived container from
`createFrom`, await the callback on the derived container, return the
derived container. -/
def clone (w : WorkspaceState)
    (createFrom : WorkspaceContainer → WorkspaceContainer) (fn : Nat) :
    Async WorkspaceContainer :=
  Async.bind awaitReadyStep fun _ =>
  Async.bind (awaitCreateFromStep createFrom w.container) fun container =>
  Async.bind (awaitCallbackStep fn) fun _ =>
  Async.pure container

/-- `Workspace.cloneSandbox(fn)`: await readiness, then delegate to `clone`
when `this.container.config.network === 'sandbox'` and otherwise return
`null` (modelled as `none`). -/
def cloneSandbox (w : WorkspaceState)
    (createFrom : WorkspaceContainer → WorkspaceContainer) (fn : Nat) :
    Async (Option WorkspaceContainer) :=
  Async.bind awaitReadyStep fun _ =>
  if w.container.config.network = "sandbox" then
    Async.bind (clone w createFrom fn) fun c => Async.pure (some c)
  else
    Async.pure none

end Workspace

/-! ### Helper lemmas -/

/-- Exhaustive description of `getNetworkFromEnv`. -/
theorem getNetworkFromEnv_cases (env : Option String) :
    (env = none ∧ Workspace.getNetworkFromEnv env = Except.ok "sandbox") ∨
    (env = some "sandbox" ∧
      Workspace.getNetworkFromEnv env = Except.ok "sandbox") ∨
    (env = some "testnet" ∧
      Workspace.getNetworkFromEnv env = Except.ok "testnet") ∨
    (∃ v, env = some v ∧ v ≠ "sandbox" ∧ v ≠ "testnet" ∧
      Workspace.getNetworkFromEnv env =
        Except.error (JSError.invalidNetwork v)) := by
  match env with
  | none => exact Or.inl ⟨rfl, rfl⟩
  | some v =>
    by_cases h1 : v = "sandbox"
    · subst h1; exact Or.inr (Or.inl ⟨rfl, rfl⟩)
    · by_cases h2 : v = "testnet"
      · subst h2; exact Or.inr (Or.inr (Or.inl ⟨rfl, rfl⟩))
      · refine Or.inr (Or.inr (Or.inr ⟨v, rfl, h1, h2, ?_⟩))
        unfold Workspace.getNetworkFromEnv
        split
        · next heq => exact absurd (Option.some.inj heq) h1
        · next heq => exact absurd (Option.some.inj heq) h2
        · next heq => exact absurd heq (by simp)
        · next heq => rw [← Option.some.inj heq]

/-- `getConfigAndFn` on a first argument that is neither function- nor
object-typed throws. -/
theorem getConfigAndFn_reject (h : Heap) (a b : JSValue)
    (h1 : jsTypeof a ≠ "function") (h2 : jsTypeof a ≠ "object") :
    getConfigAndFn h a b = Except.error JSError.invalidArguments := by
  unfold getConfigAndFn
  rw [if_neg fun hc => h1 hc.1, if_neg fun hc => h2 hc.1]

/-- `getConfigAndFn` on two functions throws. -/
theorem getConfigAndFn_fn_fn (h : Heap) (a b : JSValue)
    (h1 : jsTypeof a = "function") (h2 : jsTypeof b = "function") :
    getConfigAndFn h a b = Except.error JSError.invalidArguments := by
  unfold getConfigAndFn
  rw [if_neg, if_neg]
  · intro hc; rw [h1] at hc; exact absurd hc.1 (by decide)
  · intro hc; rw [h2] at hc; exact absurd hc.2 (by decide)

/-- `getConfigAndFn` on a lone function allocates an empty configuration. -/
theorem getConfigAndFn_fn_only (h : Heap) (a b : JSValue)
    (h1 : jsTypeof a = "function") (h2 : jsTypeof b = "undefined") :
    getConfigAndFn h a b =
      Except.ok ((Heap.alloc h).1, JSValue.object h.next, a) := by
  unfold getConfigAndFn
  rw [if_pos ⟨h1, h2⟩]
  rfl

/-- `getConfigAndFn` passes an object-typed first argument through. -/
theorem getConfigAndFn_obj (h : Heap) (a b : JSValue)
    (h1 : jsTypeof a = "object")
    (h2 : jsTypeof b = "function" ∨ jsTypeof b = "undefined") :
    getConfigAndFn h a b = Except.ok (h, a, b) := by
  unfold getConfigAndFn
  rw [if_neg, if_pos ⟨h1, h2⟩]
  intro hc; rw [h1] at hc; exact absurd hc.1 (by decide)

/-- Only `null` and plain objects are object-typed. -/
theorem jsTypeof_object_cases (a : JSValue) (ha : jsTypeof a = "object") :
    a = JSValue.null ∨ ∃ cid, a = JSValue.object cid := by
  cases a with
  | null => exact Or.inl rfl
  | object cid => exact Or.inr ⟨cid, rfl⟩
  | undefined => simp [jsTypeof] at ha
  | boolean b => simp [jsTypeof] at ha
  | number n => simp [jsTypeof] at ha
  | string s => simp [jsTypeof] at ha
  | function id => simp [jsTypeof] at ha

/-- Exhaustive description of `getConfigAndFn`. -/
theorem getConfigAndFn_cases (h : Heap) (a b : JSValue) :
    (getConfigAndFn h a b = Except.error JSError.invalidArguments) ∨
    (getConfigAndFn h a b =
        Except.ok ((Heap.alloc h).1, JSValue.object h.next, a) ∧
      jsTypeof a = "function" ∧ jsTypeof b = "undefined") ∨
    (getConfigAndFn h a b = Except.ok (h, a, b) ∧ jsTypeof a = "object" ∧
      (jsTypeof b = "function" ∨ jsTypeof b = "undefined")) := by
  by_cases h1 : jsTypeof a = "function" ∧ jsTypeof b = "undefined"
  · exact Or.inr (Or.inl ⟨getConfigAndFn_fn_only h a b h1.1 h1.2, h1⟩)
  · by_cases h2 : jsTypeof a = "object" ∧
        (jsTypeof b = "function" ∨ jsTypeof b = "undefined")
    · exact Or.inr (Or.inr ⟨getConfigAndFn_obj h a b h2.1 h2.2, h2.1, h2.2⟩)
    · left
      unfold getConfigAndFn
      rw [if_neg h1, if_neg h2]

/-- A freshly allocated object is the empty object. -/
theorem Heap.alloc_get (h : Heap) :
    ((Heap.alloc h).1).objs h.next = emptyObj := by
  unfold Heap.alloc
  simp

/-- Writing back the object already stored at `cid` leaves every slot of the
heap unchanged. -/
theorem Heap.set_self (h : Heap) (cid : Nat) (j : Nat) :
    (h.set cid (h.objs cid)).objs j = h.objs j := by
  unfold Heap.set
  by_cases hj : j = cid
  · subst hj; simp
  · simp [hj]

/-- The heap write of `init` touches no slot other than the configuration
object itself. -/
theorem Heap.set_frame (h : Heap) (cid : Nat) (o : Obj) (j : Nat)
    (hj : j ≠ cid) : (h.set cid o).objs j = h.objs j := by
  unfold Heap.set
  simp [hj]

/-- When the classifier throws, `init` throws the same error and the
environment is not read. -/
theorem init_classifier_error (h : Heap) (env : Option String) (a b : JSValue)
    (a1 : JSValue)
    (ha1 : (if a = JSValue.undefined then defaultInitFn else a) = a1)
    (hc : getConfigAndFn h a1 b = Except.error JSError.invalidArguments) :
    Workspace.init h env a b = (Except.error JSError.invalidArguments, 0) := by
  simp only [Workspace.init, ha1, hc]

/-- `init` when the resolved configuration is an object with a nullish
network and the environment resolves: the network is written onto that
object, and the environment was read once. -/
theorem init_resolved_nullish_ok (h : Heap) (env : Option String)
    (a b : JSValue) (a1 : JSValue) (h2 : Heap) (id : Nat) (fn : JSValue)
    (net : String)
    (ha1 : (if a = JSValue.undefined then defaultInitFn else a) = a1)
    (hc : getConfigAndFn h a1 b = Except.ok (h2, JSValue.object id, fn))
    (hnull : isNullish (h2.objs id).network = true)
    (henv : Workspace.getNetworkFromEnv env = Except.ok net) :
    Workspace.init h env a b =
      (Except.ok
        (h2.set id { h2.objs id with network := JSValue.string net },
          JSValue.object id, fn), 1) := by
  simp only [Workspace.init, ha1, hc, hnull, henv, if_true]

/-- `init` when the resolved configuration is an object with a nullish
network and the environment value is invalid: the environment error is
thrown, after one read. -/
theorem init_resolved_nullish_err (h : Heap) (env : Option String)
    (a b : JSValue) (a1 : JSValue) (h2 : Heap) (id : Nat) (fn : JSValue)
    (e2 : JSError)
    (ha1 : (if a = JSValue.undefined then defaultInitFn else a) = a1)
    (hc : getConfigAndFn h a1 b = Except.ok (h2, JSValue.object id, fn))
    (hnull : isNullish (h2.objs id).network = true)
    (henv : Workspace.getNetworkFromEnv env = Except.error e2) :
    Workspace.init h env a b = (Except.error e2, 1) := by
  simp only [Workspace.init, ha1, hc, hnull, henv, if_true]

/-- `init` when the resolved configuration is an object whose network is
already set: the same object is written back and the environment is not
read. -/
theorem init_resolved_set (h : Heap) (env : Option String)
    (a b : JSValue) (a1 : JSValue) (h2 : Heap) (id : Nat) (fn : JSValue)
    (ha1 : (if a = JSValue.undefined then defaultInitFn else a) = a1)
    (hc : getConfigAndFn h a1 b = Except.ok (h2, JSValue.object id, fn))
    (hset : isNullish (h2.objs id).network = false) :
    Workspace.init h env a b =
      (Except.ok (h2.set id (h2.objs id), JSValue.object id, fn), 0) := by
  simp only [Workspace.init, ha1, hc, hset, Bool.false_eq_true, if_false]

/-- `init` when the resolved configuration is `null`: the property read on
`null` throws a TypeError before the environment is consulted. -/
theorem init_resolved_null (h : Heap) (env : Option String)
    (a b : JSValue) (a1 : JSValue) (h2 : Heap) (fn : JSValue)
    (ha1 : (if a = JSValue.undefined then defaultInitFn else a) = a1)
    (hc : getConfigAndFn h a1 b = Except.ok (h2, JSValue.null, fn)) :
    Workspace.init h env a b =
      (Except.error (JSError.typeErrorNullRead "network"), 0) := by
  simp only [Workspace.init, ha1, hc]

/-- An explicit object argument is not replaced by the default parameter. -/
theorem initArg_object (cid : Nat) :
    (if JSValue.object cid = JSValue.undefined then defaultInitFn
     else JSValue.object cid) = JSValue.object cid :=
  if_neg (fun hx => JSValue.noConfusion hx)

/-- An explicit `null` argument is not replaced by the default parameter. -/
theorem initArg_null :
    (if JSValue.null = JSValue.undefined then defaultInitFn
     else JSValue.null) = JSValue.null :=
  if_neg (fun hx => JSValue.noConfusion hx)

/-- `init` on an object whose `network` is nullish and an environment that
resolves: the network is written onto that object in place. -/
theorem init_obj_nullish (h : Heap) (env : Option String) (cid : Nat)
    (b : JSValue) (net : String)
    (hb : jsTypeof b = "function" ∨ jsTypeof b = "undefined")
    (hnull : isNullish (h.objs cid).network = true)
    (henv : Workspace.getNetworkFromEnv env = Except.ok net) :
    Workspace.init h env (JSValue.object cid) b =
      (Except.ok
        (h.set cid { h.objs cid with network := JSValue.string net },
          JSValue.object cid, b), 1) :=
  init_resolved_nullish_ok h env (JSValue.object cid) b (JSValue.object cid)
    h cid b net (initArg_object cid)
    (getConfigAndFn_obj h (JSValue.object cid) b rfl hb) hnull henv

/-- `init` on an object whose `network` is already set: the same value is
written back, and the environment is not read. -/
theorem init_obj_set (h : Heap) (env : Option String) (cid : Nat)
    (b : JSValue)
    (hb : jsTypeof b = "function" ∨ jsTypeof b = "undefined")
    (hset : isNullish (h.objs cid).network = false) :
    Workspace.init h env (JSValue.object cid) b =
      (Except.ok (h.set cid (h.objs cid), JSValue.object cid, b), 0) :=
  init_resolved_set h env (JSValue.object cid) b (JSValue.object cid)
    h cid b (initArg_object cid)
    (getConfigAndFn_obj h (JSValue.object cid) b rfl hb) hset

/-- `init` on a `null` configuration passes the classifier (typeof null is
object) and then throws a TypeError reading `.network` on `null`. -/
theorem init_null (h : Heap) (env : Option String) (b : JSValue)
    (hb : jsTypeof b = "function" ∨ jsTypeof b = "undefined") :
    Workspace.init h env JSValue.null b =
      (Except.error (JSError.typeErrorNullRead "network"), 0) :=
  init_resolved_null h env JSValue.null b JSValue.null h b initArg_null
    (getConfigAndFn_obj h JSValue.null b rfl hb)

/-- Every throw of `init` is one of: the classifier's invalid-arguments
error, an invalid environment value actually consulted (the read counter is
one, witnessing that the resolved configuration's network was nullish), or
the TypeError of a `null` configuration. -/
theorem init_error_classes (h : Heap) (env : Option String) (a b : JSValue)
    (e : JSError)
    (he : (Workspace.init h env a b).1 = Except.error e) :
    e = JSError.invalidArguments ∨
    (∃ v, e = JSError.invalidNetwork v ∧ env = some v ∧
      v ≠ "sandbox" ∧ v ≠ "testnet" ∧ (Workspace.init h env a b).2 = 1) ∨
    (e = JSError.typeErrorNullRead "network" ∧ a = JSValue.null) := by
  rcases getConfigAndFn_cases h
      (if a = JSValue.undefined then defaultInitFn else a) b
    with hc | ⟨hc, hfn, hbu⟩ | ⟨hc, hobj, hb2⟩
  · rw [init_classifier_error h env a b _ rfl hc] at he
    exact Or.inl (Except.error.inj he).symm
  · have hnull : isNullish (((Heap.alloc h).1).objs h.next).network = true := by
      rw [Heap.alloc_get]; rfl
    rcases getNetworkFromEnv_cases env with ⟨hv, hg⟩ | ⟨hv, hg⟩ | ⟨hv, hg⟩ |
        ⟨v, hv, hv1, hv2, hg⟩
    · rw [init_resolved_nullish_ok h env a b _ _ _ _ _ rfl hc hnull hg] at he
      exact absurd he (by simp)
    · rw [init_resolved_nullish_ok h env a b _ _ _ _ _ rfl hc hnull hg] at he
      exact absurd he (by simp)
    · rw [init_resolved_nullish_ok h env a b _ _ _ _ _ rfl hc hnull hg] at he
      exact absurd he (by simp)
    · rw [init_resolved_nullish_err h env a b _ _ _ _ _ rfl hc hnull hg] at he
      refine Or.inr (Or.inl ⟨v, (Except.error.inj he).symm, hv, hv1, hv2, ?_⟩)
      rw [init_resolved_nullish_err h env a b _ _ _ _ _ rfl hc hnull hg]
  · rcases jsTypeof_object_cases _ hobj with ha | ⟨cid, ha⟩
    · have haN : a = JSValue.null := by
        by_cases hu : a = JSValue.undefined
        · rw [if_pos hu] at ha; exact absurd ha (by simp [defaultInitFn])
        · rw [if_neg hu] at ha; exact ha
      rw [ha] at hc
      rw [init_resolved_null h env a b _ _ _ ha hc] at he
      exact Or.inr (Or.inr ⟨(Except.error.inj he).symm, haN⟩)
    · rw [ha] at hc
      by_cases hnull : isNullish (h.objs cid).network = true
      · rcases getNetworkFromEnv_cases env with ⟨hv, hg⟩ | ⟨hv, hg⟩ |
            ⟨hv, hg⟩ | ⟨v, hv, hv1, hv2, hg⟩
        · rw [init_resolved_nullish_ok h env a b _ _ _ _ _ ha hc hnull hg] at he
          exact absurd he (by simp)
        · rw [init_resolved_nullish_ok h env a b _ _ _ _ _ ha hc hnull hg] at he
          exact absurd he (by simp)
        · rw [init_resolved_nullish_ok h env a b _ _ _ _ _ ha hc hnull hg] at he
          exact absurd he (by simp)
        · rw [init_resolved_nullish_err h env a b _ _ _ _ _ ha hc hnull hg] at he
          refine Or.inr (Or.inl ⟨v, (Except.error.inj he).symm, hv, hv1, hv2, ?_⟩)
          rw [init_resolved_nullish_err h env a b _ _ _ _ _ ha hc hnull hg]
      · rw [init_resolved_set h env a b _ _ _ _ ha hc
            (Bool.not_eq_true _ |>.mp hnull)] at he
        exact absurd he (by simp)

/-- `getConfigAndFn` throws when the second argument is present but not a
function, for any first argument. -/
theorem getConfigAndFn_fn_bad (h : Heap) (a b : JSValue)
    (h1 : jsTypeof a = "function") (h2 : jsTypeof b ≠ "undefined") :
    getConfigAndFn h a b = Except.error JSError.invalidArguments := by
  unfold getConfigAndFn
  rw [if_neg fun hcc => h2 hcc.2, if_neg]
  intro hcc; rw [h1] at hcc; exact absurd hcc.1 (by decide)

/-- An unrecognized environment value throws the invalid-network error. -/
theorem getNetworkFromEnv_invalid (v : String) (hv1 : v ≠ "sandbox")
    (hv2 : v ≠ "testnet") :
    Workspace.getNetworkFromEnv (some v) =
      Except.error (JSError.invalidNetwork v) := by
  rcases getNetworkFromEnv_cases (some v) with ⟨hv, _⟩ | ⟨hv, _⟩ | ⟨hv, _⟩ |
      ⟨w, hw, _, _, hg⟩
  · exact absurd hv (by simp)
  · exact absurd (Option.some.inj hv) hv1
  · exact absurd (Option.some.inj hv) hv2
  · rw [← Option.some.inj hw] at hg; exact hg

/-! ### Claims -/

/-- Claim C1: `Workspace.getNetworkFromEnv` returns `sandbox` when the
environment variable `NEAR_WORKSPACES_NETWORK` is unset, returns the value
unchanged when it is `sandbox` or `testnet`, and throws an error for any
other value. -/
theorem C1_getNetworkFromEnv_spec :
    Workspace.getNetworkFromEnv none = Except.ok "sandbox" ∧
    Workspace.getNetworkFromEnv (some "sandbox") = Except.ok "sandbox" ∧
    Workspace.getNetworkFromEnv (some "testnet") = Except.ok "testnet" ∧
    ∀ v : String, v ≠ "sandbox" → v ≠ "testnet" →
      Workspace.getNetworkFromEnv (some v) =
        Except.error (JSError.invalidNetwork v) :=
  ⟨rfl, rfl, rfl, fun v h1 h2 => getNetworkFromEnv_invalid v h1 h2⟩

/-- Claim C1 witness: concrete evaluation at an unrecognized value. -/
theorem C1_getNetworkFromEnv_spec_witness :
    Workspace.getNetworkFromEnv (some "mainnet") =
      Except.error (JSError.invalidNetwork "mainnet") :=
  C1_getNetworkFromEnv_spec.2.2.2 "mainnet" (by decide) (by decide)

/-- Claim C2 counterexample: `Workspace.init` called with both arguments
`undefined` has a first argument that is neither a function nor an object,
yet it does not throw: the default parameter (an async function) takes the
place of the missing first argument and the call succeeds. -/
theorem C2_counterexample :
    jsTypeof JSValue.undefined ≠ "function" ∧
    jsTypeof JSValue.undefined ≠ "object" ∧
    isError (Workspace.init heap0 none JSValue.undefined
        JSValue.undefined).1 = false :=
  ⟨by decide, by decide, rfl⟩

/-- Claim C2 (amended): `Workspace.init` throws the invalid-arguments error
whenever the first argument is neither a function nor object-typed -- except
for the pair (`undefined`, `undefined`), where the default parameter applies
and the call succeeds -- and also whenever a function is paired with a second
function. -/
theorem C2_init_invalid_arguments (h : Heap) (env : Option String)
    (a b : JSValue)
    (hab : (jsTypeof a ≠ "function" ∧ jsTypeof a ≠ "object" ∧
        ¬(a = JSValue.undefined ∧ jsTypeof b = "undefined")) ∨
      (jsTypeof a = "function" ∧ jsTypeof b = "function")) :
    (Workspace.init h env a b).1 = Except.error JSError.invalidArguments := by
  rcases hab with ⟨h1, h2, h3⟩ | ⟨hf, hg⟩
  · by_cases hu : a = JSValue.undefined
    · have hbu : jsTypeof b ≠ "undefined" := fun hx => h3 ⟨hu, hx⟩
      rw [init_classifier_error h env a b defaultInitFn (if_pos hu)
        (getConfigAndFn_fn_bad h defaultInitFn b rfl hbu)]
    · rw [init_classifier_error h env a b a (if_neg hu)
        (getConfigAndFn_reject h a b h1 h2)]
  · have hu : a ≠ JSValue.undefined := by
      intro hx; rw [hx] at hf; exact absurd hf (by decide)
    rw [init_classifier_error h env a b a (if_neg hu)
        (getConfigAndFn_fn_bad h a b hf (by rw [hg]; decide))]

/-- Claim C2 witness: a number as first argument throws. -/
theorem C2_init_invalid_arguments_witness :
    (Workspace.init heap0 none (JSValue.number 3) JSValue.undefined).1 =
      Except.error JSError.invalidArguments :=
  C2_init_invalid_arguments heap0 none (JSValue.number 3) JSValue.undefined
    (Or.inl ⟨by decide, by decide, by decide⟩)

/-- Claim C3: calling the static constructor with only a function resolves
the arguments to a freshly allocated empty configuration object paired with
that function as the run function. -/
theorem C3_lone_function_empty_config (h : Heap) (fid : Nat) :
    getConfigAndFn h (JSValue.function fid) JSValue.undefined =
      Except.ok
        ((Heap.alloc h).1, JSValue.object h.next, JSValue.function fid) ∧
    ((Heap.alloc h).1).objs h.next = emptyObj ∧
    emptyObj.network = JSValue.undefined ∧ emptyObj.rest = [] :=
  ⟨getConfigAndFn_fn_only h (JSValue.function fid) JSValue.undefined rfl rfl,
    Heap.alloc_get h, rfl, rfl⟩

/-- Claim C4: calling the static constructor with a configuration object and
a function resolves the arguments to exactly that object and that function;
the heap is untouched, so neither is replaced. -/
theorem C4_config_and_fn_used (h : Heap) (cid fid : Nat) :
    getConfigAndFn h (JSValue.object cid) (JSValue.function fid) =
      Except.ok (h, JSValue.object cid, JSValue.function fid) :=
  getConfigAndFn_obj h (JSValue.object cid) (JSValue.function fid) rfl
    (Or.inl rfl)

/-- Claim C5: when the configured network is `testnet`, `cloneSandbox` only
awaits readiness and returns `null`: the callback is never run and no
derived container is created. -/
theorem C5_cloneSandbox_testnet_noop (w : WorkspaceState)
    (createFrom : WorkspaceContainer → WorkspaceContainer) (fn : Nat)
    (hnet : w.container.config.network = "testnet") :
    Workspace.cloneSandbox w createFrom fn = ([Event.awaitReady], none) ∧
    Event.runCallback fn ∉ (Workspace.cloneSandbox w createFrom fn).1 ∧
    Event.awaitCreateFrom ∉ (Workspace.cloneSandbox w createFrom fn).1 := by
  have hne : ¬(w.container.config.network = "sandbox") := by
    rw [hnet]; decide
  have heq : Workspace.cloneSandbox w createFrom fn =
      ([Event.awaitReady], none) := by
    simp only [Workspace.cloneSandbox, Async.bind, Async.pure, awaitReadyStep,
      if_neg hne, List.append_nil]
  refine ⟨heq, ?_, ?_⟩ <;> rw [heq] <;> simp

/-- Claim C5 witness: concrete testnet workspace. -/
theorem C5_cloneSandbox_testnet_noop_witness :
    Workspace.cloneSandbox ⟨⟨⟨"testnet"⟩⟩⟩ id 0 = ([Event.awaitReady], none) ∧
    Event.runCallback 0 ∉ (Workspace.cloneSandbox ⟨⟨⟨"testnet"⟩⟩⟩ id 0).1 ∧
    Event.awaitCreateFrom ∉ (Workspace.cloneSandbox ⟨⟨⟨"testnet"⟩⟩⟩ id 0).1 :=
  C5_cloneSandbox_testnet_noop ⟨⟨⟨"testnet"⟩⟩⟩ id 0 rfl

/-- Claim C7: `clone` suspends strictly in sequence -- readiness first, then
the derived container from `createFrom`, then the user callback -- and
returns that derived container; in particular the callback event comes after
both other suspension points in the trace. -/
theorem C7_clone_sequential (w : WorkspaceState)
    (createFrom : WorkspaceContainer → WorkspaceContainer) (fn : Nat) :
    Workspace.clone w createFrom fn =
      ([Event.awaitReady, Event.awaitCreateFrom, Event.runCallback fn],
        createFrom w.container) := rfl

/-- Claim C8: with a nullish `network`, `init` writes the environment-resolved
network onto the caller's object in place, leaving its other fields and every
other object unchanged; with `network` already set, the heap is observably
untouched and the environment is read zero times. -/
theorem C8_init_config_mutation (h : Heap) (env : Option String) (cid : Nat)
    (b : JSValue) (net : String)
    (hb : jsTypeof b = "function" ∨ jsTypeof b = "undefined") :
    (isNullish (h.objs cid).network = true →
      Workspace.getNetworkFromEnv env = Except.ok net →
      Workspace.init h env (JSValue.object cid) b =
        (Except.ok
          (h.set cid { h.objs cid with network := JSValue.string net },
            JSValue.object cid, b), 1) ∧
      ((h.set cid
          { h.objs cid with network := JSValue.string net }).objs cid).rest =
        (h.objs cid).rest ∧
      (∀ j, j ≠ cid →
        (h.set cid
          { h.objs cid with network := JSValue.string net }).objs j =
          h.objs j)) ∧
    (isNullish (h.objs cid).network = false →
      Workspace.init h env (JSValue.object cid) b =
        (Except.ok (h.set cid (h.objs cid), JSValue.object cid, b), 0) ∧
      (∀ j, (h.set cid (h.objs cid)).objs j = h.objs j)) := by
  constructor
  · intro hnull henv
    refine ⟨init_obj_nullish h env cid b net hb hnull henv, ?_, ?_⟩
    · unfold Heap.set; simp
    · intro j hj; exact Heap.set_frame h cid _ j hj
  · intro hset
    exact ⟨init_obj_set h env cid b hb hset, fun j => Heap.set_self h cid j⟩

/-- Claim C8 witness: concrete mutation of an empty configuration object. -/
theorem C8_init_config_mutation_witness :
    Workspace.init heap0 none (JSValue.object 0) JSValue.undefined =
      (Except.ok
        (Heap.set heap0 0
          { heap0.objs 0 with network := JSValue.string "sandbox" },
          JSValue.object 0, JSValue.undefined), 1) ∧
    ((Heap.set heap0 0
        { heap0.objs 0 with network := JSValue.string "sandbox" }).objs
        0).rest = (heap0.objs 0).rest :=
  ⟨((C8_init_config_mutation heap0 none 0 JSValue.undefined "sandbox"
      (Or.inr rfl)).1 rfl rfl).1,
    ((C8_init_config_mutation heap0 none 0 JSValue.undefined "sandbox"
      (Or.inr rfl)).1 rfl rfl).2.1⟩

/-- Claim C9: `typeof null` is `object`, so the argument classifier accepts a
`null` configuration paired with a function, returning the pair unchanged,
and `Workspace.init` does not throw the invalid-arguments error on it. -/
theorem C9_null_config_accepted (h : Heap) (env : Option String) (fid : Nat) :
    getConfigAndFn h JSValue.null (JSValue.function fid) =
      Except.ok (h, JSValue.null, JSValue.function fid) ∧
    isInvalidArguments (Workspace.init h env JSValue.null
        (JSValue.function fid)).1 = false := by
  refine ⟨getConfigAndFn_obj h JSValue.null (JSValue.function fid) rfl
    (Or.inl rfl), ?_⟩
  rw [init_null h env (JSValue.function fid) (Or.inl rfl)]
  rfl

/-- Claim C10: whenever `getNetworkFromEnv` returns, exactly one of
`networkIsTestnet` and `networkIsSandbox` holds, and `networkIsTestnet`
holds exactly when the environment variable is set to `testnet`. -/
theorem C10_network_predicates (env : Option String) (n : String)
    (hok : Workspace.getNetworkFromEnv env = Except.ok n) :
    (Workspace.networkIsTestnet env = Except.ok true ↔
      env = some "testnet") ∧
    (Workspace.networkIsTestnet env = Except.ok true ∨
      Workspace.networkIsSandbox env = Except.ok true) ∧
    ¬(Workspace.networkIsTestnet env = Except.ok true ∧
      Workspace.networkIsSandbox env = Except.ok true) := by
  rcases getNetworkFromEnv_cases env with ⟨hv, hg⟩ | ⟨hv, hg⟩ | ⟨hv, hg⟩ |
      ⟨v, hv, hv1, hv2, hg⟩
  · subst hv
    have ht : Workspace.networkIsTestnet none = Except.ok false := rfl
    have hs : Workspace.networkIsSandbox none = Except.ok true := rfl
    exact ⟨⟨fun hx => absurd (ht.symm.trans hx) (by simp),
        fun hx => absurd hx (by simp)⟩,
      Or.inr hs, fun hx => absurd (ht.symm.trans hx.1) (by simp)⟩
  · subst hv
    have ht : Workspace.networkIsTestnet (some "sandbox") =
        Except.ok false := rfl
    have hs : Workspace.networkIsSandbox (some "sandbox") =
        Except.ok true := rfl
    exact ⟨⟨fun hx => absurd (ht.symm.trans hx) (by simp),
        fun hx => absurd hx (by simp)⟩,
      Or.inr hs, fun hx => absurd (ht.symm.trans hx.1) (by simp)⟩
  · subst hv
    have ht : Workspace.networkIsTestnet (some "testnet") =
        Except.ok true := rfl
    have hs : Workspace.networkIsSandbox (some "testnet") =
        Except.ok false := rfl
    exact ⟨⟨fun _ => rfl, fun _ => ht⟩, Or.inl ht,
      fun hx => absurd (hs.symm.trans hx.2) (by simp)⟩
  · exact absurd (hok.symm.trans hg) (by simp)

/-- Claim C10 witness: concrete evaluation on the testnet value. -/
theorem C10_network_predicates_witness :
    (Workspace.networkIsTestnet (some "testnet") = Except.ok true ↔
      (some "testnet" : Option String) = some "testnet") ∧
    (Workspace.networkIsTestnet (some "testnet") = Except.ok true ∨
      Workspace.networkIsSandbox (some "testnet") = Except.ok true) ∧
    ¬(Workspace.networkIsTestnet (some "testnet") = Except.ok true ∧
      Workspace.networkIsSandbox (some "testnet") = Except.ok true) :=
  C10_network_predicates (some "testnet") "testnet" rfl

/-- Claim C6 counterexample: with a `null` configuration, a function callback
and a well-formed environment, the classifier accepts the arguments and the
environment value is valid, yet `init` still throws -- a TypeError, which is
neither of the two stated error paths. -/
theorem C6_counterexample :
    isError (getConfigAndFn heap0 JSValue.null (JSValue.function 1)) = false ∧
    isError (Workspace.getNetworkFromEnv none) = false ∧
    isError (Workspace.init heap0 none JSValue.null
        (JSValue.function 1)).1 = true ∧
    isInvalidArguments (Workspace.init heap0 none JSValue.null
        (JSValue.function 1)).1 = false ∧
    isInvalidNetwork (Workspace.init heap0 none JSValue.null
        (JSValue.function 1)).1 = false :=
  ⟨rfl, rfl, rfl, rfl, rfl⟩

/-- Claim C6 (amended): the visible layer throws exactly on three paths --
invalid arguments to the static constructor, an invalid environment value
that is actually consulted (the configuration does not already carry a
network; the read counter is one), or a `null` configuration, where
resolving the network onto `null` raises a TypeError.  `clone` and
`cloneSandbox` have no error path in this layer. -/
theorem C6_error_paths (h : Heap) (env : Option String) (a b : JSValue) :
    (∀ e, (Workspace.init h env a b).1 = Except.error e →
      e = JSError.invalidArguments ∨
      (∃ v, e = JSError.invalidNetwork v ∧ env = some v ∧
        v ≠ "sandbox" ∧ v ≠ "testnet" ∧ (Workspace.init h env a b).2 = 1) ∨
      (e = JSError.typeErrorNullRead "network" ∧ a = JSValue.null)) ∧
    (∀ v cid, a = JSValue.object cid →
      isNullish (h.objs cid).network = true →
      (jsTypeof b = "function" ∨ jsTypeof b = "undefined") →
      env = some v → v ≠ "sandbox" → v ≠ "testnet" →
      (Workspace.init h env a b).1 =
        Except.error (JSError.invalidNetwork v)) ∧
    (a = JSValue.null →
      (jsTypeof b = "function" ∨ jsTypeof b = "undefined") →
      (Workspace.init h env a b).1 =
        Except.error (JSError.typeErrorNullRead "network")) := by
  refine ⟨fun e he => init_error_classes h env a b e he, ?_, ?_⟩
  · intro v cid ha hnull hb henv hv1 hv2
    subst ha
    subst henv
    rw [init_resolved_nullish_err h (some v) (JSValue.object cid) b
      (JSValue.object cid) h cid b (JSError.invalidNetwork v)
      (initArg_object cid)
      (getConfigAndFn_obj h (JSValue.object cid) b rfl hb) hnull
      (getNetworkFromEnv_invalid v hv1 hv2)]
  · intro ha hb
    subst ha
    rw [init_null h env b hb]

/-- Claim C6 witness: a consulted invalid environment value throws the
invalid-network error. -/
theorem C6_error_paths_witness :
    (Workspace.init heap0 (some "mainnet") (JSValue.object 0)
        JSValue.undefined).1 =
      Except.error (JSError.invalidNetwork "mainnet") :=
  (C6_error_paths heap0 (some "mainnet") (JSValue.object 0)
      JSValue.undefined).2.1 "mainnet" 0 rfl rfl (Or.inr rfl) rfl
    (by decide) (by decide)
